import Mathlib

/-!
Shallow embedding of the Intcode-style virtual machine in `src/src/main.rs`.

The Rust program signals every error condition with a `panic!` (an abort of
the process); the embedding makes each panic site explicit as an
`Except.error` carrying a `Panic` value that records which panic fired and
the data available at the site.  A result of `Except.ok` corresponds to the
Rust function returning normally; `Except.error` corresponds to the process
aborting.  Machine integers (`i32`) are modelled as `Int` with Rust's
truncated division (`Int.tdiv`) and remainder (`Int.tmod`); the single
`i32 as usize` cast in the source is modelled by `i32AsUsize`.
-/

/-- The distinct `panic!` sites of the Rust program.  `indexOutOfBounds`
is the panic raised by Rust `Vec` indexing (it reports the index and the
length); the others correspond to explicit `panic!` calls. -/
inductive Panic where
  /-- `read_mem` / `write_mem` on a negative address. -/
  | illegalMemoryAccess (addr : Int)
  /-- Out-of-range `Vec` index (program tape or input vector). -/
  | indexOutOfBounds (idx : Nat) (len : Nat)
  /-- `fetch_instr` on an opcode outside the instruction table. -/
  | unknownOpcode (ip : Nat) (opcode : Int)
  /-- `fetch_arg_value` with a mode that is neither 0 nor 1. -/
  | unknownParamMode (mode : Int)
  /-- `goto` with a negative destination. -/
  | jumpOutOfProgram (dest : Int)
  /-- `ParaModes::mode` with an operand number outside {1,2,3}. -/
  | unsupportedParamModeNumber (n : Int)
  deriving DecidableEq, Repr

deriving instance DecidableEq for Except

/-- Rust `Vec` indexing `v[i]`: the value on success, the index panic
otherwise. -/
def vecIndex (v : List Int) (i : Nat) : Except Panic Int :=
  if h : i < v.length then .ok (v.get ⟨i, h⟩)
  else .error (.indexOutOfBounds i v.length)

/-- The cast `w as usize` applied to an `i32` value: a negative value
wraps around `2^64`. -/
def i32AsUsize (w : Int) : Nat :=
  if 0 ≤ w then w.toNat else (2 ^ 64 + w).toNat

/-- `struct Instruction { opcode: i32, steps_next: usize }`. -/
structure Instruction where
  opcode : Int
  steps_next : Nat
  deriving DecidableEq, Repr

def I_ADD : Instruction := { opcode := 1, steps_next := 4 }

def I_MUL : Instruction := { opcode := 2, steps_next := 4 }

def I_IN : Instruction := { opcode := 3, steps_next := 2 }

def I_OUT : Instruction := { opcode := 4, steps_next := 2 }

def I_JT : Instruction := { opcode := 5, steps_next := 3 }

def I_JF : Instruction := { opcode := 6, steps_next := 3 }

def I_LT : Instruction := { opcode := 7, steps_next := 4 }

def I_EQ : Instruction := { opcode := 8, steps_next := 4 }

def I_HALT : Instruction := { opcode := 99, steps_next := 0 }

def MODE_REF : Int := 0

def MODE_VAL : Int := 1

/-- `ParaModes::param_modes`: the three mode digits of an instruction
word, computed exactly as in the source (Rust `%` and `/` are truncated,
hence `Int.tmod` / `Int.tdiv`). -/
def param_modes (instr : Int) : Int × Int × Int :=
  let param_part := (instr - instr.tmod 100).tdiv 100
  (param_part.tmod 10,
   ((param_part - param_part.tmod 10).tdiv 10).tmod 10,
   ((param_part - param_part.tmod 100).tdiv 100).tmod 10)

/-- `struct ParaModes { modes: [i32; 3] }`. -/
structure ParaModes where
  modes : Int × Int × Int
  deriving DecidableEq, Repr

def ParaModes.new (instr : Int) : ParaModes :=
  { modes := param_modes instr }

/-- `ParaModes::mode(n)`: the mode digit for operand `n ∈ {1,2,3}`;
any other `n` hits the `panic!` in the source. -/
def ParaModes.mode (p : ParaModes) (n : Int) : Except Panic Int :=
  if n = 1 then .ok p.modes.1
  else if n = 2 then .ok p.modes.2.1
  else if n = 3 then .ok p.modes.2.2
  else .error (.unsupportedParamModeNumber n)

/-- `struct VM`: the program tape, instruction pointer, input cursor,
output counter, halt flag, and the input/output vectors. -/
structure VM where
  program : List Int
  ip : Nat
  in_p : Nat
  out_p : Nat
  halted : Bool
  inputs : List Int
  outputs : List Int
  deriving DecidableEq, Repr

/-- `VM::new`. -/
def VM.new (program : List Int) (inputs : List Int) : VM :=
  { program := program, ip := 0, in_p := 0, out_p := 0,
    halted := false, inputs := inputs, outputs := [] }

/-- `VM::read_mem`: panics on a negative address, then indexes the tape
(panicking when out of range). -/
def VM.read_mem (vm : VM) (addr : Int) : Except Panic Int :=
  if addr < 0 then .error (.illegalMemoryAccess addr)
  else vecIndex vm.program addr.toNat

/-- `VM::write_mem`: panics on a negative address, then stores through
the tape index (panicking when out of range). -/
def VM.write_mem (vm : VM) (addr : Int) (value : Int) : Except Panic VM :=
  if addr < 0 then .error (.illegalMemoryAccess addr)
  else if addr.toNat < vm.program.length then
    .ok { vm with program := vm.program.set addr.toNat value }
  else .error (.indexOutOfBounds addr.toNat vm.program.length)

/-- `VM::fetch_instr`: reads the word at the instruction pointer, builds
the `ParaModes`, and looks the low two decimal digits up in the
instruction table; an opcode outside the table panics. -/
def VM.fetch_instr (vm : VM) : Except Panic (Instruction × ParaModes) := do
  let instruction ← vecIndex vm.program vm.ip
  let para_modes := ParaModes.new instruction
  let opcode := instruction.tmod 100
  if opcode = 1 then pure (I_ADD, para_modes)
  else if opcode = 2 then pure (I_MUL, para_modes)
  else if opcode = 3 then pure (I_IN, para_modes)
  else if opcode = 4 then pure (I_OUT, para_modes)
  else if opcode = 5 then pure (I_JT, para_modes)
  else if opcode = 6 then pure (I_JF, para_modes)
  else if opcode = 7 then pure (I_LT, para_modes)
  else if opcode = 8 then pure (I_EQ, para_modes)
  else if opcode = 99 then pure (I_HALT, para_modes)
  else .error (.unknownOpcode vm.ip opcode)

/-- `VM::fetch_arg`: the raw word at `ip + n`. -/
def VM.fetch_arg (vm : VM) (n : Nat) : Except Panic Int :=
  vecIndex vm.program (vm.ip + n)

/-- `VM::fetch_arg_value`: the raw word at `ip + n`, returned literally
under `MODE_VAL`, dereferenced through `read_mem` under `MODE_REF`, and a
panic under any other mode. -/
def VM.fetch_arg_value (vm : VM) (n : Nat) (mode : Int) : Except Panic Int := do
  let arg ← vecIndex vm.program (vm.ip + n)
  if mode = MODE_VAL then pure arg
  else if mode = MODE_REF then vm.read_mem arg
  else .error (.unknownParamMode mode)

/-- `VM::step`. -/
def VM.step (vm : VM) (n : Nat) : VM :=
  { vm with ip := vm.ip + n }

/-- `VM::goto`: panics on a negative destination, otherwise sets the
instruction pointer (with no upper-bound check). -/
def VM.goto (vm : VM) (dest : Int) : Except Panic VM :=
  if dest < 0 then .error (.jumpOutOfProgram dest)
  else .ok { vm with ip := dest.toNat }

/-- `VM::read_input`: indexes the input vector at the input cursor
(panicking when the cursor is past the end) and advances the cursor. -/
def VM.read_input (vm : VM) : Except Panic (Int × VM) := do
  let input ← vecIndex vm.inputs vm.in_p
  pure (input, { vm with in_p := vm.in_p + 1 })

/-- `VM::i_add`. -/
def VM.i_add (vm : VM) (modes : ParaModes) : Except Panic VM := do
  let m1 ← modes.mode 1
  let param1 ← vm.fetch_arg_value 1 m1
  let m2 ← modes.mode 2
  let param2 ← vm.fetch_arg_value 2 m2
  let dest ← vm.fetch_arg 3
  let vm2 ← vm.write_mem dest (param1 + param2)
  pure (vm2.step I_ADD.steps_next)

/-- `VM::i_mul` (the source fetches the raw words of operands 1 and 2
first, for logging; those fetches can panic, so they are kept). -/
def VM.i_mul (vm : VM) (modes : ParaModes) : Except Panic VM := do
  let _adr1 ← vm.fetch_arg 1
  let _adr2 ← vm.fetch_arg 2
  let m1 ← modes.mode 1
  let param1 ← vm.fetch_arg_value 1 m1
  let m2 ← modes.mode 2
  let param2 ← vm.fetch_arg_value 2 m2
  let dest ← vm.fetch_arg 3
  let value := param1 * param2
  let vm2 ← vm.write_mem dest value
  pure (vm2.step I_MUL.steps_next)

/-- `VM::i_input`. -/
def VM.i_input (vm : VM) : Except Panic VM := do
  let adr ← vm.fetch_arg 1
  let (input, vm2) ← vm.read_input
  let vm3 ← vm2.write_mem adr input
  pure { vm3 with ip := vm3.ip + I_IN.steps_next }

/-- `VM::i_output`: `self.program[self.program[(self.ip + 1)] as usize]`
is appended to the outputs — the operand is dereferenced positionally with
no mode consulted; the `as usize` cast sends a negative word to a huge
index. -/
def VM.i_output (vm : VM) : Except Panic VM := do
  let w ← vecIndex vm.program (vm.ip + 1)
  let adr := i32AsUsize w
  let output ← vecIndex vm.program adr
  pure { vm with outputs := vm.outputs ++ [output], out_p := vm.out_p + 1,
                 ip := vm.ip + I_OUT.steps_next }

/-- `VM::i_jt`. -/
def VM.i_jt (vm : VM) (modes : ParaModes) : Except Panic VM := do
  let m1 ← modes.mode 1
  let param ← vm.fetch_arg_value 1 m1
  let m2 ← modes.mode 2
  let dest ← vm.fetch_arg_value 2 m2
  if param ≠ 0 then vm.goto dest
  else pure (vm.step I_JT.steps_next)

/-- `VM::i_jf` (the non-jump branch advances by `I_JT.steps_next`,
exactly as in the source). -/
def VM.i_jf (vm : VM) (modes : ParaModes) : Except Panic VM := do
  let m1 ← modes.mode 1
  let param ← vm.fetch_arg_value 1 m1
  let m2 ← modes.mode 2
  let dest ← vm.fetch_arg_value 2 m2
  if param = 0 then vm.goto dest
  else pure (vm.step I_JT.steps_next)

/-- `VM::i_lt`. -/
def VM.i_lt (vm : VM) (modes : ParaModes) : Except Panic VM := do
  let m1 ← modes.mode 1
  let param1 ← vm.fetch_arg_value 1 m1
  let m2 ← modes.mode 2
  let param2 ← vm.fetch_arg_value 2 m2
  let dest ← vm.fetch_arg 3
  let res : Int := if param1 < param2 then 1 else 0
  let vm2 ← vm.write_mem dest res
  pure (vm2.step I_LT.steps_next)

/-- `VM::i_eq`. -/
def VM.i_eq (vm : VM) (modes : ParaModes) : Except Panic VM := do
  let m1 ← modes.mode 1
  let param1 ← vm.fetch_arg_value 1 m1
  let m2 ← modes.mode 2
  let param2 ← vm.fetch_arg_value 2 m2
  let dest ← vm.fetch_arg 3
  let res : Int := if param1 = param2 then 1 else 0
  let vm2 ← vm.write_mem dest res
  pure (vm2.step I_EQ.steps_next)

/-- `VM::i_halt`. -/
def VM.i_halt (vm : VM) : VM :=
  { vm with halted := true }

/-- `VM::exec_inst`: fetch, decode, dispatch.  The final `i_halt`
fall-through of the source is unreachable because `fetch_instr` already
panics on an unknown opcode, but it is kept as written. -/
def VM.exec_inst (vm : VM) : Except Panic VM := do
  let (instr, modes) ← vm.fetch_instr
  let opcode := instr.opcode
  if opcode = 99 then pure vm.i_halt
  else if opcode = 1 then vm.i_add modes
  else if opcode = 2 then vm.i_mul modes
  else if opcode = 3 then vm.i_input
  else if opcode = 4 then vm.i_output
  else if opcode = 5 then vm.i_jt modes
  else if opcode = 6 then vm.i_jf modes
  else if opcode = 7 then vm.i_lt modes
  else if opcode = 8 then vm.i_eq modes
  else pure vm.i_halt

/-- `VM::is_halted`. -/
def VM.is_halted (vm : VM) : Bool :=
  vm.halted

/-- The `while !self.is_halted() { self.exec_inst(); }` loop of
`VM::run`, made total with a fuel parameter: `none` means the fuel ran
out before the loop exited, `some (.ok vm)` a normal exit, and
`some (.error p)` a panic during some cycle. -/
def VM.runFuel : VM → Nat → Option (Except Panic VM)
  | vm, 0 => if vm.is_halted then some (.ok vm) else none
  | vm, fuel + 1 =>
    if vm.is_halted then some (.ok vm)
    else
      match vm.exec_inst with
      | .ok vm2 => VM.runFuel vm2 fuel
      | .error p => some (.error p)

/-- `VM::run`: resets the instruction pointer to 0 and loops until the
halt flag is set or a panic aborts the run. -/
def VM.run (vm : VM) (fuel : Nat) : Option (Except Panic VM) :=
  VM.runFuel { vm with ip := 0 } fuel

/-! ### Helper lemmas -/

theorem vecIndex_ok_of_get? {v : List Int} {i : Nat} {w : Int}
    (h : v.get? i = some w) : vecIndex v i = Except.ok w := by
  rcases List.get?_eq_some.mp h with ⟨hlt, hget⟩
  unfold vecIndex
  rw [dif_pos hlt, hget]

theorem vecIndex_err_of_le {v : List Int} {i : Nat} (h : v.length ≤ i) :
    vecIndex v i = Except.error (Panic.indexOutOfBounds i v.length) := by
  unfold vecIndex
  rw [dif_neg (Nat.not_lt.mpr h)]

theorem fetch_instr_of_get? {vm : VM} {w : Int}
    (h : vm.program.get? vm.ip = some w) :
    vm.fetch_instr =
      (if w.tmod 100 = 1 then Except.ok (I_ADD, ParaModes.new w)
       else if w.tmod 100 = 2 then Except.ok (I_MUL, ParaModes.new w)
       else if w.tmod 100 = 3 then Except.ok (I_IN, ParaModes.new w)
       else if w.tmod 100 = 4 then Except.ok (I_OUT, ParaModes.new w)
       else if w.tmod 100 = 5 then Except.ok (I_JT, ParaModes.new w)
       else if w.tmod 100 = 6 then Except.ok (I_JF, ParaModes.new w)
       else if w.tmod 100 = 7 then Except.ok (I_LT, ParaModes.new w)
       else if w.tmod 100 = 8 then Except.ok (I_EQ, ParaModes.new w)
       else if w.tmod 100 = 99 then Except.ok (I_HALT, ParaModes.new w)
       else Except.error (Panic.unknownOpcode vm.ip (w.tmod 100))) := by
  unfold VM.fetch_instr
  rw [vecIndex_ok_of_get? h]
  rfl

theorem exec_inst_input {vm : VM} {w : Int}
    (hw : vm.program.get? vm.ip = some w) (hop : w.tmod 100 = 3) :
    vm.exec_inst = vm.i_input := by
  unfold VM.exec_inst
  rw [fetch_instr_of_get? hw, hop]
  rfl

theorem exec_inst_out {vm : VM} {w : Int}
    (hw : vm.program.get? vm.ip = some w) (hop : w.tmod 100 = 4) :
    vm.exec_inst = vm.i_output := by
  unfold VM.exec_inst
  rw [fetch_instr_of_get? hw, hop]
  rfl

theorem exec_inst_jt {vm : VM} {w : Int}
    (hw : vm.program.get? vm.ip = some w) (hop : w.tmod 100 = 5) :
    vm.exec_inst = vm.i_jt (ParaModes.new w) := by
  unfold VM.exec_inst
  rw [fetch_instr_of_get? hw, hop]
  rfl

theorem exec_inst_jf {vm : VM} {w : Int}
    (hw : vm.program.get? vm.ip = some w) (hop : w.tmod 100 = 6) :
    vm.exec_inst = vm.i_jf (ParaModes.new w) := by
  unfold VM.exec_inst
  rw [fetch_instr_of_get? hw, hop]
  rfl

/-! ### Claim theorems -/

/-- C1 (counterexample to the claim as stated): on tape `[77,0,0,0]` the
run does not end with a `Faulted` status and a structured fault value
available to the caller — it aborts with the `UnknownOpcode` panic raised
at program counter 0, so no `Except.ok` state is ever returned. -/
theorem C1_counterexample :
    (VM.new [77, 0, 0, 0] []).run 9 =
      some (Except.error (Panic.unknownOpcode 0 77)) := by decide

/-- C1 (amended): executing any state whose word at the program counter
decodes to an opcode outside {1,…,8,99} aborts the cycle with the
`UnknownOpcode` panic carrying the program counter and the decoded
opcode; no successor state is produced, so the tape is not mutated by the
faulting cycle and no further instruction is executed — but the abort is
a process-terminating panic, not a `Faulted` status returned as a value. -/
theorem C1_unknown_opcode_panics (vm : VM) (w : Int)
    (hw : vm.program.get? vm.ip = some w)
    (hop : w.tmod 100 ∉ ([1, 2, 3, 4, 5, 6, 7, 8, 99] : List Int)) :
    vm.exec_inst = Except.error (Panic.unknownOpcode vm.ip (w.tmod 100)) := by
  simp only [List.mem_cons, List.not_mem_nil, or_false, not_or] at hop
  obtain ⟨h1, h2, h3, h4, h5, h6, h7, h8, h9⟩ := hop
  unfold VM.exec_inst
  rw [fetch_instr_of_get? hw, if_neg h1, if_neg h2, if_neg h3, if_neg h4,
    if_neg h5, if_neg h6, if_neg h7, if_neg h8, if_neg h9]
  rfl

/-- C1 witness: the amended theorem applied to the tape `[77,0,0,0]`. -/
theorem C1_witness :
    (VM.new [77, 0, 0, 0] []).exec_inst =
      Except.error (Panic.unknownOpcode 0 77) :=
  C1_unknown_opcode_panics (VM.new [77, 0, 0, 0] []) 77 rfl (by decide)

/-- C2 (counterexample to the claim as stated): the program
`[4,0,3,0,99]` with no inputs first outputs `4`, then executes the input
instruction with the input cursor past the end of the (empty) input
sequence; the run aborts with the `Vec` index panic — not an
`InputExhausted` fault value — and the previously produced outputs are
lost with the process instead of remaining inspectable. -/
theorem C2_counterexample :
    (VM.new [4, 0, 3, 0, 99] []).run 9 =
      some (Except.error (Panic.indexOutOfBounds 0 0)) := by decide

/-- C2 (amended): executing an input instruction (opcode 3) with the
input cursor at or past the end of the input sequence aborts the run with
the index-out-of-bounds panic of the input vector (reporting the cursor
and the input length); no successor state — and hence no inspectable
output sequence — is returned. -/
theorem C2_input_exhausted_panics (vm : VM) (w a : Int)
    (hw : vm.program.get? vm.ip = some w) (hop : w.tmod 100 = 3)
    (ha : vm.program.get? (vm.ip + 1) = some a)
    (hex : vm.inputs.length ≤ vm.in_p) :
    vm.exec_inst = Except.error (Panic.indexOutOfBounds vm.in_p vm.inputs.length) := by
  rw [exec_inst_input hw hop]
  unfold VM.i_input VM.fetch_arg VM.read_input
  rw [vecIndex_ok_of_get? ha, vecIndex_err_of_le hex]
  rfl

/-- C2 witness: the amended theorem applied to `[3,0,99]` with an empty
input sequence. -/
theorem C2_witness :
    (VM.new [3, 0, 99] []).exec_inst =
      Except.error (Panic.indexOutOfBounds 0 0) :=
  C2_input_exhausted_panics (VM.new [3, 0, 99] []) 3 0 rfl (by decide) rfl
    (by decide)

/-- C3 (counterexample to the claim as stated): the program
`[1,0,0,-1,99]` attempts to write to address `-1`; the run aborts with
the `Illegal memory access` panic (which terminates the process and does
not carry the program counter) instead of returning a structured
`InvalidAddress` fault value to the caller. -/
theorem C3_counterexample :
    (VM.new [1, 0, 0, -1, 99] []).run 9 =
      some (Except.error (Panic.illegalMemoryAccess (-1))) := by decide

/-- C3 (amended): `read_mem` and `write_mem` accept an address exactly
when `0 ≤ addr < tape length`.  A negative address aborts with the
`Illegal memory access` panic carrying the address; an address `≥`
length aborts with the `Vec` index panic carrying the index and the
length.  Neither abort carries the program counter, and both terminate
the process rather than returning a fault value. -/
theorem C3_bounds_checked_panics (vm : VM) (addr value : Int) :
    (addr < 0 →
      vm.read_mem addr = Except.error (Panic.illegalMemoryAccess addr) ∧
      vm.write_mem addr value = Except.error (Panic.illegalMemoryAccess addr)) ∧
    (0 ≤ addr → vm.program.length ≤ addr.toNat →
      vm.read_mem addr =
        Except.error (Panic.indexOutOfBounds addr.toNat vm.program.length) ∧
      vm.write_mem addr value =
        Except.error (Panic.indexOutOfBounds addr.toNat vm.program.length)) ∧
    (0 ≤ addr → addr.toNat < vm.program.length →
      (vm.read_mem addr).isOk = true ∧ (vm.write_mem addr value).isOk = true) := by
  refine ⟨fun hneg => ?_, fun hpos hge => ?_, fun hpos hlt => ?_⟩
  · exact ⟨by simp [VM.read_mem, hneg], by simp [VM.write_mem, hneg]⟩
  · have hnl : ¬ addr < 0 := Int.not_lt.mpr hpos
    exact ⟨by simp [VM.read_mem, hnl, vecIndex_err_of_le hge],
      by simp [VM.write_mem, hnl, Nat.not_lt.mpr hge]⟩
  · have hnl : ¬ addr < 0 := Int.not_lt.mpr hpos
    exact ⟨by simp [VM.read_mem, hnl, vecIndex, hlt, Except.isOk, Except.toBool],
      by simp [VM.write_mem, hnl, hlt, Except.isOk, Except.toBool]⟩

/-- C3 witness: the amended theorem applied to a read at address `-1`. -/
theorem C3_witness :
    (VM.new [1, 0, 0, 0, 99] []).read_mem (-1) =
      Except.error (Panic.illegalMemoryAccess (-1)) :=
  ((C3_bounds_checked_panics (VM.new [1, 0, 0, 0, 99] []) (-1) 5).1 (by decide)).1

/-- C6: the program `[1002,4,3,4,33]` runs to completion, halts, and
leaves `99 = 33 * 3` in tape cell 4 (mixed immediate/position decoding of
the multiply). -/
theorem C6_mixed_mode_mul :
    (VM.new [1002, 4, 3, 4, 33] []).run 2 =
      some (Except.ok { program := [1002, 4, 3, 4, 99], ip := 4, in_p := 0,
                        out_p := 0, halted := true, inputs := [],
                        outputs := [] }) := by decide

/-- C7: the program `[1,0,0,0,99]` runs to completion and halts with
final tape `[2,0,0,0,99]`. -/
theorem C7_add_program :
    (VM.new [1, 0, 0, 0, 99] []).run 2 =
      some (Except.ok { program := [2, 0, 0, 0, 99], ip := 4, in_p := 0,
                        out_p := 0, halted := true, inputs := [],
                        outputs := [] }) := by decide

theorem bindE_ok {α β : Type} (a : α) (f : α → Except Panic β) :
    (Except.ok a >>= f) = f a := rfl

theorem bindE_err {α β : Type} (e : Panic) (f : α → Except Panic β) :
    ((Except.error e : Except Panic α) >>= f) = Except.error e := rfl

theorem fetch_instr_opcode_ok {vm : VM} {w : Int}
    (hget : vm.program.get? vm.ip = some w) :
    ∀ instr pm, vm.fetch_instr = Except.ok (instr, pm) →
      instr.opcode = w.tmod 100 := by
  intro instr pm hfetch
  rw [fetch_instr_of_get? hget] at hfetch
  split_ifs at hfetch <;>
    simp_all [I_ADD, I_MUL, I_IN, I_OUT, I_JT, I_JF, I_LT, I_EQ, I_HALT] <;>
    rw [← hfetch.1]

theorem fetch_instr_opcode_err {vm : VM} {w : Int}
    (hget : vm.program.get? vm.ip = some w) :
    ∀ p, vm.fetch_instr = Except.error p →
      p = Panic.unknownOpcode vm.ip (w.tmod 100) := by
  intro p hfetch
  rw [fetch_instr_of_get? hget] at hfetch
  split_ifs at hfetch
  cases hfetch
  rfl

theorem sub_tmod_tdiv (a b : Int) (hb : b ≠ 0) :
    (a - a.tmod b).tdiv b = a.tdiv b := by
  have h := Int.tdiv_add_tmod a b
  have h2 : a - a.tmod b = b * a.tdiv b := by linarith
  rw [h2, Int.mul_tdiv_cancel_left _ hb]

/-- C4: whenever the output instruction (opcode 4) completes, the value
appended to the output sequence is `Tape[raw argument at ip + 1]` — the
operand is dereferenced positionally, with the instruction's declared
parameter modes never consulted — and the program counter advances by 2. -/
theorem C4_output_positional (vm : VM) (w a v : Int)
    (hw : vm.program.get? vm.ip = some w) (hop : w.tmod 100 = 4)
    (ha : vm.program.get? (vm.ip + 1) = some a) (hpos : 0 ≤ a)
    (hv : vm.program.get? a.toNat = some v) :
    vm.exec_inst =
      Except.ok { vm with outputs := vm.outputs ++ [v],
                          out_p := vm.out_p + 1, ip := vm.ip + 2 } := by
  rw [exec_inst_out hw hop]
  unfold VM.i_output
  rw [vecIndex_ok_of_get? ha]
  simp only [bindE_ok]
  have hcast : i32AsUsize a = a.toNat := if_pos hpos
  rw [hcast, vecIndex_ok_of_get? hv]
  rfl

/-- C4 witness: the program `[104,0,99]` declares immediate mode on the
output operand, yet the appended value is `Tape[Tape[1]] = Tape[0] = 104`,
and the program counter advances to 2. -/
theorem C4_witness :
    (VM.new [104, 0, 99] []).exec_inst =
      Except.ok { program := [104, 0, 99], ip := 2, in_p := 0, out_p := 1,
                  halted := false, inputs := [], outputs := [104] } :=
  C4_output_positional (VM.new [104, 0, 99] []) 104 0 104 rfl (by decide)
    rfl (by decide) rfl

/-- C5: decoding an instruction word `w` yields the opcode `w mod 100`
(Rust truncated remainder) and, for `n ∈ {1,2,3}`, the mode of operand
`n` equal to digit `n` of `w div 100` taken least-significant-first,
i.e. `((w div 100) div 10^(n-1)) mod 10`; requesting `mode n` for any
other `n` hits the dedicated internal `panic!` (a programming-contract
violation distinct from every run-time fault of the machine). -/
theorem C5_decode (w n : Int) :
    (1 ≤ n → n ≤ 3 →
      (ParaModes.new w).mode n =
        Except.ok (((w.tdiv 100).tdiv (10 ^ (n - 1).toNat)).tmod 10)) ∧
    (¬ (1 ≤ n ∧ n ≤ 3) →
      (ParaModes.new w).mode n =
        Except.error (Panic.unsupportedParamModeNumber n)) ∧
    (∀ vm : VM, vm.program.get? vm.ip = some w →
      (∀ instr pm, vm.fetch_instr = Except.ok (instr, pm) →
        instr.opcode = w.tmod 100) ∧
      (∀ p, vm.fetch_instr = Except.error p →
        p = Panic.unknownOpcode vm.ip (w.tmod 100))) := by
  have key100 : (w - w.tmod 100).tdiv 100 = w.tdiv 100 :=
    sub_tmod_tdiv w 100 (by norm_num)
  refine ⟨fun hn1 hn3 => ?_, fun hn => ?_, fun vm hget => ⟨?_, ?_⟩⟩
  · have hcases : n = 1 ∨ n = 2 ∨ n = 3 := by omega
    rcases hcases with rfl | rfl | rfl
    · simp [ParaModes.mode, ParaModes.new, param_modes, key100, Int.tdiv_one]
    · have key10 : (w.tdiv 100 - (w.tdiv 100).tmod 10).tdiv 10 =
          (w.tdiv 100).tdiv 10 := sub_tmod_tdiv _ 10 (by norm_num)
      simp [ParaModes.mode, ParaModes.new, param_modes, key100, key10]
    · have key100b : (w.tdiv 100 - (w.tdiv 100).tmod 100).tdiv 100 =
          (w.tdiv 100).tdiv 100 := sub_tmod_tdiv _ 100 (by norm_num)
      simp [ParaModes.mode, ParaModes.new, param_modes, key100, key100b]
  · have h1 : n ≠ 1 := by omega
    have h2 : n ≠ 2 := by omega
    have h3 : n ≠ 3 := by omega
    simp [ParaModes.mode, h1, h2, h3]
  · exact fetch_instr_opcode_ok hget
  · exact fetch_instr_opcode_err hget

/-- C5 witness: for the word 1002 (`10|02`), operand 2 has mode digit 1
(immediate). -/
theorem C5_witness : (ParaModes.new 1002).mode 2 = Except.ok 1 :=
  ((C5_decode 1002 2).1 (by norm_num) (by norm_num)).trans (by decide)

set_option maxHeartbeats 4000000 in
/-- C8: for every integer `n`, the program `[3,0,4,0,99]` with input
sequence `[n]` runs to completion, halts, and produces output sequence
exactly `[n]`. -/
theorem C8_echo (n : Int) :
    (VM.new [3, 0, 4, 0, 99] [n]).run 3 =
      some (Except.ok { program := [n, 0, 4, 0, 99], ip := 4, in_p := 1,
                        out_p := 1, halted := true, inputs := [n],
                        outputs := [n] }) := rfl

/-- C9: execution is deterministic — two VMs constructed from the same
initial tape and input sequence and run with the same fuel produce the
same result (same outputs, same final tape, same halt flag, or the same
panic). -/
theorem C9_deterministic (program inputs : List Int) (fuel : Nat)
    (vm1 vm2 : VM) (h1 : vm1 = VM.new program inputs)
    (h2 : vm2 = VM.new program inputs) :
    vm1.run fuel = vm2.run fuel := by
  rw [h1, h2]

/-- C9 witness: the determinism theorem applied to the halt program. -/
theorem C9_witness :
    (VM.new [99] []).run 1 = (VM.new [99] []).run 1 :=
  C9_deterministic [99] [] 1 (VM.new [99] []) (VM.new [99] []) rfl rfl

/-- C10: a taken jump (opcode 5 with nonzero condition, opcode 6 with
zero condition) checks only that the resolved target is non-negative:
any target `t ≥ 0` — including `t ≥ tape length` — makes the jump itself
succeed and sets the program counter to `t`; an out-of-range program
counter is only detected when the next instruction fetch indexes past
the end of the tape, while a negative target panics in `goto`. -/
theorem C10_taken_jump_unchecked_target (vm : VM) (w c t : Int)
    (hw : vm.program.get? vm.ip = some w)
    (hc : vm.fetch_arg_value 1 (ParaModes.new w).modes.1 = Except.ok c)
    (ht : vm.fetch_arg_value 2 (ParaModes.new w).modes.2.1 = Except.ok t)
    (htaken : (w.tmod 100 = 5 ∧ c ≠ 0) ∨ (w.tmod 100 = 6 ∧ c = 0))
    (htn : 0 ≤ t) :
    vm.exec_inst = Except.ok { vm with ip := t.toNat } ∧
    (∀ vm2 : VM, vm2.program.length ≤ vm2.ip →
      vm2.exec_inst =
        Except.error (Panic.indexOutOfBounds vm2.ip vm2.program.length)) ∧
    (∀ d : Int, d < 0 →
      vm.goto d = Except.error (Panic.jumpOutOfProgram d)) := by
  have hm1 : (ParaModes.new w).mode 1 =
      Except.ok (ParaModes.new w).modes.1 := rfl
  have hm2 : (ParaModes.new w).mode 2 =
      Except.ok (ParaModes.new w).modes.2.1 := rfl
  refine ⟨?_, fun vm2 hlen => ?_, fun d hd => ?_⟩
  · rcases htaken with ⟨hop, hcne⟩ | ⟨hop, hceq⟩
    · rw [exec_inst_jt hw hop]
      unfold VM.i_jt
      rw [hm1]
      simp only [bindE_ok]
      rw [hc]
      simp only [bindE_ok]
      rw [hm2]
      simp only [bindE_ok]
      rw [ht]
      simp only [bindE_ok]
      rw [if_pos hcne]
      unfold VM.goto
      rw [if_neg (Int.not_lt.mpr htn)]
    · rw [exec_inst_jf hw hop]
      unfold VM.i_jf
      rw [hm1]
      simp only [bindE_ok]
      rw [hc]
      simp only [bindE_ok]
      rw [hm2]
      simp only [bindE_ok]
      rw [ht]
      simp only [bindE_ok]
      rw [if_pos hceq]
      unfold VM.goto
      rw [if_neg (Int.not_lt.mpr htn)]
  · unfold VM.exec_inst VM.fetch_instr
    rw [vecIndex_err_of_le hlen]
    rfl
  · unfold VM.goto
    rw [if_pos hd]

/-- C10 witness: `[1105,1,7,99]` jumps (immediate modes) to target 7,
past the end of the 4-cell tape; the jump succeeds and sets the program
counter to 7. -/
theorem C10_witness :
    (VM.new [1105, 1, 7, 99] []).exec_inst =
      Except.ok { program := [1105, 1, 7, 99], ip := 7, in_p := 0,
                  out_p := 0, halted := false, inputs := [],
                  outputs := [] } :=
  (C10_taken_jump_unchecked_target (VM.new [1105, 1, 7, 99] []) 1105 1 7
    rfl (by decide) (by decide) (Or.inl ⟨by decide, by decide⟩)
    (by decide)).1
